import Mathlib

/-!
Verification of the configuration-driven GIS extraction engine of the
Planting-Optimisation-Tool repository (src/gis/core/extract_data.py and
src/gis/core/farm_profile.py), as a shallow embedding in Lean 4.

Modelling conventions:
* Python floats are modelled as exact rationals (`Rat`); Python's `round`
  (round half to even, returning `int` without an `ndigits` argument and
  `float` with one) is modelled by `pyRoundInt` / `pyRoundDp`.
* Python values that may be `int`, `float` or `str` are modelled by `PyVal`;
  scalars that are either `int` or `float` by `Num`.
* A Python function that may raise is modelled in `Except String`; an
  uncaught exception propagates through the `Except` bind, exactly as in the
  source, and `try/except` blocks are modelled by matching on the result.
* The external collaborators that are not part of src/ (the Earth Engine
  client, `core.geometry_parser.parse_geometry` and the dataset registry
  `config.settings.get_dataset_config`) are abstracted into an environment
  record `Env`; the requests the engine sends to Earth Engine are reified
  as `RasterRequest` values so that theorems can talk about exactly which
  query the code issues.
-/

namespace PlantingTool

/-- Scalar that is either a Python `int` or a Python `float`. -/
inductive Num where
  | int : Int → Num
  | float : Rat → Num
deriving DecidableEq, Repr

/-- Python value as it can come back from a feature field: `int`, `float`
or `str`. -/
inductive PyVal where
  | int : Int → PyVal
  | float : Rat → PyVal
  | str : String → PyVal
deriving DecidableEq, Repr

/-- Python `round(x)` with no `ndigits`: round half to even, yielding `Int`. -/
def pyRoundInt (q : Rat) : Int :=
  let f : Int := ⌊q⌋
  let r : Rat := q - (f : Rat)
  if r < 1/2 then f
  else if 1/2 < r then f + 1
  else if f % 2 = 0 then f else f + 1

/-- Python `round(x, n)`: round half to even at `n` decimal places, yielding
a float (here a rational with denominator dividing `10 ^ n`). -/
def pyRoundDp (n : Nat) (q : Rat) : Rat :=
  (pyRoundInt (q * (10 : Rat) ^ n) : Rat) / (10 : Rat) ^ n

/-- Python `str.strip()` on the character list: drop leading and trailing
whitespace. -/
def pyStripList (l : List Char) : List Char :=
  ((l.dropWhile Char.isWhitespace).reverse.dropWhile Char.isWhitespace).reverse

/-- Python `str.strip()`. -/
def pyStrip (s : String) : String :=
  (pyStripList s.toList).asString

/-- Python `str.lower()`. -/
def pyLower (s : String) : String :=
  (s.toList.map Char.toLower).asString

/-- Python `txt.split(",")[0]`: the text before the first comma, or the
whole text when there is none. -/
def beforeFirstComma (s : String) : String :=
  (s.toList.takeWhile (fun c => c != ',')).asString

/-- Python `float(str)` on a plain decimal literal: optional sign, digits,
optional fractional part, surrounding whitespace stripped; every other
string raises `ValueError`. -/
def parseDecimal? (s : String) : Option Rat :=
  let t := pyStripList s.toList
  let (sign, t) : Rat × List Char :=
    match t with
    | '-' :: rest => (-1, rest)
    | '+' :: rest => (1, rest)
    | _ => (1, t)
  let intPart := t.takeWhile Char.isDigit
  let t := t.dropWhile Char.isDigit
  let (fracPart, t) : List Char × List Char :=
    match t with
    | '.' :: rest => (rest.takeWhile Char.isDigit, rest.dropWhile Char.isDigit)
    | _ => ([], t)
  if t = [] ∧ (intPart ≠ [] ∨ fracPart ≠ []) then
    let digits := intPart ++ fracPart
    let mag : Nat := digits.foldl (fun acc c => acc * 10 + (c.toNat - 48)) 0
    some (sign * (mag : Rat) / (10 : Rat) ^ fracPart.length)
  else
    none

/-- `float` applied to a `Num` (`float(int)` widens, `float(float)` is the
identity). -/
def numToFloat : Num → Rat
  | .int k => (k : Rat)
  | .float q => q

/-- Python `round` applied to a `Num`: `round(int)` is the identity,
`round(float)` rounds half to even to an `int`. -/
def pyRoundNum : Num → Int
  | .int k => k
  | .float q => pyRoundInt q

/-- A `Num` seen as a generic `PyVal`. -/
def numToPyVal : Num → PyVal
  | .int k => .int k
  | .float q => .float q

/-- Dataset descriptor as produced by `config.settings.get_dataset_config`:
required keys are plain fields, keys that the code tests with
`"key" in config` or reads with `config.get(key, default)` are `Option`s
(`temporal` is kept as a `Bool` because only its `config.get("temporal",
False)` truthiness is ever used). -/
structure DatasetConfig where
  asset_id : String := ""
  band : String := ""
  field : String := ""
  scale : Rat := 0
  reducer : Option String := none
  temporal : Bool := false
  type : String := "raster"
  scale_factor : Option Rat := none
  offset : Option Rat := none
  bias_correction : Option Rat := none
  post_process : Option String := none
deriving DecidableEq, Repr

/-- `_get_reducer` from extract_data.py: the five known reducer names map to
themselves, anything else falls back to `mean` (the `dict.get` default). -/
def get_reducer (reducer_name : String) : String :=
  if reducer_name = "mean" ∨ reducer_name = "sum" ∨ reducer_name = "median" ∨
      reducer_name = "min" ∨ reducer_name = "max" then reducer_name
  else "mean"

/-- The raster query `_extract_from_raster` / `get_slope` sends to Earth
Engine, reified: which asset, which band was selected, the optional
`filterDate` year window, the optional collection collapse (`sum` or `mean`),
whether `ee.Terrain.slope` was applied, the key read back from the
`reduceRegion` stats, the spatial reducer, the scale and `maxPixels`. -/
structure RasterRequest where
  asset_id : String
  band : String
  dateFilter : Option (String × String) := none
  collapse : Option String := none
  terrainSlope : Bool := false
  statKey : String
  reducer : String
  scale : Rat
  maxPixels : Rat := 1000000000
deriving DecidableEq, Repr

/-- The non-temporal branch of `_extract_from_raster`: a single image of the
configured band, reduced with the configured spatial reducer. -/
def singleImageRequest (config : DatasetConfig) : RasterRequest :=
  { asset_id := config.asset_id
    band := config.band
    statKey := config.band
    reducer := get_reducer (config.reducer.getD "mean")
    scale := config.scale }

/-- The query `_extract_from_raster` issues, following the source's
`if year and config.get("temporal", False)` dispatch: a truthy (non-zero)
year on a temporal config filters the collection to
`f"{year}-01-01"`..`f"{year}-12-31"`, selects the band and collapses with
`.sum()` when the configured reducer is `"sum"`, else with `.mean()`;
otherwise the single-image request is issued. -/
def mkRasterRequest (config : DatasetConfig) (year : Option Int) : RasterRequest :=
  match year with
  | some y =>
    if y ≠ 0 ∧ config.temporal then
      { asset_id := config.asset_id
        band := config.band
        dateFilter := some (toString y ++ "-01-01", toString y ++ "-12-31")
        collapse := some (if config.reducer.getD "mean" = "sum" then "sum" else "mean")
        statKey := config.band
        reducer := get_reducer (config.reducer.getD "mean")
        scale := config.scale }
    else singleImageRequest config
  | none => singleImageRequest config

/-- A vector feature: field name to optional value, where reading a field
(`feature.get` + `getInfo`) is a remote call that may raise. -/
def Feature : Type := String → Except String (Option PyVal)

/-- The collaborators of extract_data.py that live outside src/: the dataset
registry, the geometry parser and the Earth Engine query service, over an
abstract geometry type `Geom`. Remote calls return `Except` because they can
raise, and `Option` because the reduction/feature/field can be absent. -/
structure Env (Geom : Type) where
  getConfig : String → DatasetConfig
  parseGeom : Geom → Except String Geom
  reduceRaster : RasterRequest → Geom → Except String (Option Rat)
  firstIntersecting : String → Geom → Except String (Option Feature)
  centroidCoords : Geom → Except String (List Rat)

/-- `_ee_to_float` applied to a feature-field value that has already been
fetched: `None` stays `None`, numbers are widened with `float`, strings go
through `float(str)` which raises `ValueError` on non-decimal text. -/
def ee_to_float : Option PyVal → Except String (Option Rat)
  | none => .ok none
  | some (.int k) => .ok (some (k : Rat))
  | some (.float q) => .ok (some q)
  | some (.str s) =>
    match parseDecimal? s with
    | some q => .ok (some q)
    | none => .error "ValueError: could not convert string to float"

/-- `_apply_post_process` from extract_data.py: `None` passes through,
`round_int` yields a Python `int`, `round_1dp`/`round_2dp`/`round_3dp`
yield floats rounded at 1/2/3 decimals, any other tag returns the value
unchanged. -/
def apply_post_process (value : Option Rat) (post : String) : Option Num :=
  match value with
  | none => none
  | some v =>
    if post = "round_int" then some (.int (pyRoundInt v))
    else if post = "round_1dp" then some (.float (pyRoundDp 1 v))
    else if post = "round_2dp" then some (.float (pyRoundDp 2 v))
    else if post = "round_3dp" then some (.float (pyRoundDp 3 v))
    else some (.float v)

/-- `_extract_from_raster` from extract_data.py: resolve the config, parse
the geometry, issue the raster query described by `mkRasterRequest`, return
`None` on an absent value, and otherwise apply, in source order, the
optional `scale_factor` multiplication, `offset` addition, `bias_correction`
addition and `post_process` rounding. -/
def extract_from_raster {Geom : Type} (env : Env Geom) (geometry : Geom)
    (dataset_name : String) (year : Option Int := none) :
    Except String (Option Num) :=
  let config := env.getConfig dataset_name
  match env.parseGeom geometry with
  | .error e => .error e
  | .ok g =>
    match env.reduceRaster (mkRasterRequest config year) g with
    | .error e => .error e
    | .ok none => .ok none
    | .ok (some v0) =>
      let v1 := match config.scale_factor with
        | some sf => v0 * sf
        | none => v0
      let v2 := match config.offset with
        | some o => v1 + o
        | none => v1
      let v3 := match config.bias_correction with
        | some b => v2 + b
        | none => v2
      match config.post_process with
      | some p => .ok (apply_post_process (some v3) p)
      | none => .ok (some (.float v3))

/-- `_extract_from_vector` from extract_data.py: resolve the config, parse
the geometry, take the first feature of the collection intersecting the
geometry (`filterBounds(...).first()`), return `None` when absent, read the
configured field through `_ee_to_float`, and apply the optional
`scale_factor` multiplication and `post_process` rounding (no offset and no
bias correction on this path). -/
def extract_from_vector {Geom : Type} (env : Env Geom) (geometry : Geom)
    (dataset_name : String) : Except String (Option Num) :=
  let config := env.getConfig dataset_name
  match env.parseGeom geometry with
  | .error e => .error e
  | .ok g =>
    match env.firstIntersecting config.asset_id g with
    | .error e => .error e
    | .ok none => .ok none
    | .ok (some f) =>
      match f config.field with
      | .error e => .error e
      | .ok raw =>
        match ee_to_float raw with
        | .error e => .error e
        | .ok none => .ok none
        | .ok (some v0) =>
          let v1 := match config.scale_factor with
            | some sf => v0 * sf
            | none => v0
          match config.post_process with
          | some p => .ok (apply_post_process (some v1) p)
          | none => .ok (some (.float v1))

/-- Python `year or 2024` for `year : int | None`: the default replaces a
missing or falsy (zero) year. -/
def pyOrDefault (year : Option Int) (d : Int) : Int :=
  match year with
  | some y => if y = 0 then d else y
  | none => d

/-- `get_rainfall` from extract_data.py: raster extraction from the
`"rainfall"` dataset at `year or 2024`, then `int(round(value))` on a
present value. -/
def get_rainfall {Geom : Type} (env : Env Geom) (geometry : Geom)
    (year : Option Int := none) : Except String (Option Num) :=
  match extract_from_raster env geometry "rainfall" (some (pyOrDefault year 2024)) with
  | .error e => .error e
  | .ok value => .ok (value.map (fun v => .int (pyRoundNum v)))

/-- `get_temperature` from extract_data.py: raster extraction from the
`"temperature"` dataset at `year or 2024`, then `int(round(value))` on a
present value. -/
def get_temperature {Geom : Type} (env : Env Geom) (geometry : Geom)
    (year : Option Int := none) : Except String (Option Num) :=
  match extract_from_raster env geometry "temperature" (some (pyOrDefault year 2024)) with
  | .error e => .error e
  | .ok value => .ok (value.map (fun v => .int (pyRoundNum v)))

/-- `get_elevation` from extract_data.py: raster extraction from the
`"elevation"` dataset with no year (the `year` parameter is accepted and
ignored), then `int(round(value))` on a present value. -/
def get_elevation {Geom : Type} (env : Env Geom) (geometry : Geom)
    (_year : Option Int := none) : Except String (Option Num) :=
  match extract_from_raster env geometry "elevation" none with
  | .error e => .error e
  | .ok value => .ok (value.map (fun v => .int (pyRoundNum v)))

/-- `get_ph` from extract_data.py: raster extraction from the `"soil_ph"`
dataset with no year (the `year` parameter is accepted and ignored), then
`round(float(value), 1)` on a present value. -/
def get_ph {Geom : Type} (env : Env Geom) (geometry : Geom)
    (_year : Option Int := none) : Except String (Option Num) :=
  match extract_from_raster env geometry "soil_ph" none with
  | .error e => .error e
  | .ok value => .ok (value.map (fun v => .float (pyRoundDp 1 (numToFloat v))))

/-- The raster query `get_slope` issues: the single DEM image with
`ee.Terrain.slope` applied, reduced with the mean reducer at the configured
scale, reading back the `"slope"` key. -/
def slopeRequest (config : DatasetConfig) : RasterRequest :=
  { asset_id := config.asset_id
    band := config.band
    terrainSlope := true
    statKey := "slope"
    reducer := "mean"
    scale := config.scale }

/-- `get_slope` from extract_data.py: parse the geometry, load the `"dem"`
config, issue the terrain-slope query described by `slopeRequest`, then
`round(value, 1)` on a present value. -/
def get_slope {Geom : Type} (env : Env Geom) (geometry : Geom)
    (_year : Option Int := none) : Except String (Option Num) :=
  match env.parseGeom geometry with
  | .error e => .error e
  | .ok g =>
    let config := env.getConfig "dem"
    let req : RasterRequest := slopeRequest config
    match env.reduceRaster req g with
    | .error e => .error e
    | .ok none => .ok none
    | .ok (some v) => .ok (some (.float (pyRoundDp 1 v)))

/-- `get_texture` from extract_data.py: resolve the `"soil_texture"` config;
on a raster-typed config, delegate to `_extract_from_raster` with the given
year, outside any `try` block; on any other type, run the vector lookup
(parse, `filterBounds(...).first()`, read the raw configured field without
float conversion) inside a `try` that turns every exception into a logged
warning and a `None` result. -/
def get_texture {Geom : Type} (env : Env Geom) (geometry : Geom)
    (year : Option Int := none) : Except String (Option PyVal) :=
  let config := env.getConfig "soil_texture"
  if config.type = "raster" then
    match extract_from_raster env geometry "soil_texture" year with
    | .error e => .error e
    | .ok value => .ok (value.map numToPyVal)
  else
    let attempt : Except String (Option PyVal) :=
      match env.parseGeom geometry with
      | .error e => .error e
      | .ok g =>
        match env.firstIntersecting config.asset_id g with
        | .error e => .error e
        | .ok none => .ok none
        | .ok (some f) => f config.field
    match attempt with
    | .ok v => .ok v
    | .error _ => .ok none

/-- `_normalize_texture_name` from extract_data.py on a `str | None` input:
`None` stays `None`; otherwise strip and lower-case, map text that is empty
after stripping to `None`, keep only the stripped text before the first
comma, and map the literal tokens `organic` and `variable` to `None`. -/
def normalize_texture_name (value : Option String) : Option String :=
  match value with
  | none => none
  | some v =>
    let txt := pyLower (pyStrip v)
    if txt = "" then none
    else
      let txt := if txt.toList.contains ',' then pyStrip (beforeFirstComma txt) else txt
      if txt = "organic" ∨ txt = "variable" then none
      else some txt

/-- Modelled from the spec: `config.settings.TEXTURE_MAP` is not under src/
(only its importers are). The spec fixes it as an immutable mapping from
normalized texture-class names to integer identifiers 1–12 with
`TEXTURE_MAP["sand"] = 1`, `TEXTURE_MAP["loam"] = 4` and
`TEXTURE_MAP["clay"] = 12`; the remaining USDA classes fill the other ids. -/
def TEXTURE_MAP : List (String × Int) :=
  [("sand", 1), ("loamy sand", 2), ("sandy loam", 3), ("loam", 4),
   ("silt loam", 5), ("silt", 6), ("sandy clay loam", 7), ("clay loam", 8),
   ("silty clay loam", 9), ("sandy clay", 10), ("silty clay", 11), ("clay", 12)]

/-- `get_texture_id` from extract_data.py: take `get_texture`'s value
(exceptions propagate); `None` stays `None`; a numeric value (`int` or
`float`) yields `None` because it cannot be mapped to a texture class; a
string is normalized and looked up in `TEXTURE_MAP`, where a missing key
yields `None` (`dict.get`). -/
def get_texture_id {Geom : Type} (env : Env Geom) (geometry : Geom)
    (year : Option Int := none) : Except String (Option Int) :=
  match get_texture env geometry year with
  | .error e => .error e
  | .ok texture_value =>
    match texture_value with
    | none => .ok none
    | some (.int _) => .ok none
    | some (.float _) => .ok none
    | some (.str s) =>
      match normalize_texture_name (some s) with
      | none => .ok none
      | some norm_name => .ok (TEXTURE_MAP.lookup norm_name)

/-- `get_centroid_lat_lon` from extract_data.py: parse the geometry, fetch
the centroid coordinate list from the service, read `coords[0]` as the
longitude and `coords[1]` as the latitude (an `IndexError` on a shorter
list), and return `(round(lat, 6), round(lon, 6))`. -/
def get_centroid_lat_lon {Geom : Type} (env : Env Geom) (geometry : Geom) :
    Except String (Rat × Rat) :=
  match env.parseGeom geometry with
  | .error e => .error e
  | .ok g =>
    match env.centroidCoords g with
    | .error e => .error e
    | .ok (lon :: lat :: _) => .ok (pyRoundDp 6 lat, pyRoundDp 6 lon)
    | .ok _ => .error "IndexError: list index out of range"

/-- A value of the dictionary returned by `build_farm_profile`: the farm id,
the raw geometry, or the list of per-year rainfall entries. -/
inductive ProfVal (Geom : Type) where
  | str : String → ProfVal Geom
  | geom : Geom → ProfVal Geom
  | rain : List (Int × Option Num) → ProfVal Geom
deriving DecidableEq

/-- `build_farm_profile` from src/gis/core/farm_profile.py: parse the raw
geometry (an unparseable geometry raises), compute `get_rainfall(geom_raw,
y)` for each year in order (any extraction exception propagates), and return
the dictionary with exactly the keys `farm_id`, `geometry` and `rainfall`,
the last holding one `{year, rainfall_mm}` entry per requested year. -/
def build_farm_profile {Geom : Type} (env : Env Geom) (farm_id : String)
    (geom_raw : Geom) (years : List Int) :
    Except String (List (String × ProfVal Geom)) :=
  match env.parseGeom geom_raw with
  | .error e => .error e
  | .ok _geom =>
    match years.mapM (fun y =>
        (match get_rainfall env geom_raw (some y) with
         | .error e => .error e
         | .ok value => .ok (y, value) :
         Except String (Int × Option Num))) with
    | .error e => .error e
    | .ok annual_rainfall =>
      .ok [("farm_id", .str farm_id), ("geometry", .geom geom_raw),
           ("rainfall", .rain annual_rainfall)]

/-- Spec-side name for one pipeline stage: multiply by `scale_factor` when
the config carries one. -/
def stage_scale (config : DatasetConfig) (v : Rat) : Rat :=
  match config.scale_factor with
  | some sf => v * sf
  | none => v

/-- Spec-side name for one pipeline stage: add `offset` when the config
carries one. -/
def stage_offset (config : DatasetConfig) (v : Rat) : Rat :=
  match config.offset with
  | some o => v + o
  | none => v

/-- Spec-side name for one pipeline stage: add `bias_correction` when the
config carries one. -/
def stage_bias (config : DatasetConfig) (v : Rat) : Rat :=
  match config.bias_correction with
  | some b => v + b
  | none => v

/-- Spec-side name for the final pipeline stage: apply the `post_process`
rounding when the config carries one, else keep the float unchanged. -/
def stage_post (config : DatasetConfig) (v : Rat) : Option Num :=
  match config.post_process with
  | some p => apply_post_process (some v) p
  | none => some (.float v)

/-- A concrete dataset registry used in witnesses, shaped like the datasets
the repository's tests enumerate (rainfall, temperature, elevation, soil_ph,
soil_texture, dem). -/
def cfgW : String → DatasetConfig
  | "rainfall" =>
    { asset_id := "UCSB-CHG/CHIRPS/PENTAD", band := "precipitation",
      scale := 5566, temporal := true, reducer := some "sum" }
  | "temperature" =>
    { asset_id := "MODIS/061/MOD11A1", band := "LST_Day_1km", scale := 1000,
      temporal := true, reducer := some "mean", scale_factor := some (1/50),
      offset := some (-273), bias_correction := some (-443/100),
      post_process := some "round_2dp" }
  | "elevation" =>
    { asset_id := "USGS/SRTMGL1_003", band := "elevation", scale := 30 }
  | "soil_ph" =>
    { asset_id := "OpenLandMap/SOL/PH", band := "b0", scale := 250,
      scale_factor := some (1/10), post_process := some "round_1dp" }
  | "soil_texture" =>
    { asset_id := "OpenLandMap/SOL/PH", band := "b0", scale := 250,
      type := "raster" }
  | "dem" =>
    { asset_id := "USGS/SRTMGL1_003", band := "elevation", scale := 30 }
  | _ => {}

/-- A concrete well-behaved environment over a trivial geometry type: every
raster reduction yields `10`, the vector service finds one feature whose
every field is `5.0`, and the centroid is `(125.5, -8.5)`. -/
def envW : Env Unit :=
  { getConfig := cfgW
    parseGeom := fun g => .ok g
    reduceRaster := fun _ _ => .ok (some 10)
    firstIntersecting := fun _ _ => .ok (some (fun _ => .ok (some (.float 5))))
    centroidCoords := fun _ => .ok [1255/10, -85/10] }

/-- A concrete environment whose remote service raises on every call, with
the same registry as `envW` (so `soil_texture` is raster-typed). -/
def envBoom : Env Unit :=
  { getConfig := cfgW
    parseGeom := fun g => .ok g
    reduceRaster := fun _ _ => .error "boom"
    firstIntersecting := fun _ _ => .error "boom"
    centroidCoords := fun _ => .error "boom" }

/-- A concrete environment whose `soil_texture` dataset is vector-typed and
whose geometry parser rejects its input. -/
def envVec : Env Unit :=
  { getConfig := fun _ =>
      { asset_id := "projects/texture-fc", field := "texture", type := "vector" }
    parseGeom := fun _ => .error "InvalidGeometry: unsupported input"
    reduceRaster := fun _ _ => .ok none
    firstIntersecting := fun _ _ => .ok none
    centroidCoords := fun _ => .ok [] }

/-- An environment over a trivial geometry type whose raster service always
reports an absent value, with the registry of `envW`. -/
def envNone : Env Unit :=
  { getConfig := cfgW
    parseGeom := fun g => .ok g
    reduceRaster := fun _ _ => .ok none
    firstIntersecting := fun _ _ => .ok none
    centroidCoords := fun _ => .ok [] }

/-- Claim C1: for every raster dataset configuration and geometry, when the
remote reduction yields a non-None scalar, `_extract_from_raster` returns
that scalar transformed strictly in this order - `scale_factor`
multiplication when present, then `offset` addition when present, then
`bias_correction` addition when present, then the `post_process` rounding
when present; when the reduction yields None, it returns None with no
transform applied, and `_apply_post_process` passes None through. -/
theorem claim_c1_raster_transform_order {Geom : Type} (env : Env Geom)
    (geometry g : Geom) (dataset_name : String) (year : Option Int)
    (hparse : env.parseGeom geometry = .ok g) :
    (∀ v : Rat,
      env.reduceRaster (mkRasterRequest (env.getConfig dataset_name) year) g = .ok (some v) →
      extract_from_raster env geometry dataset_name year =
        .ok (stage_post (env.getConfig dataset_name)
          (stage_bias (env.getConfig dataset_name)
            (stage_offset (env.getConfig dataset_name)
              (stage_scale (env.getConfig dataset_name) v)))))
    ∧ (env.reduceRaster (mkRasterRequest (env.getConfig dataset_name) year) g = .ok none →
        extract_from_raster env geometry dataset_name year = .ok none)
    ∧ (∀ p, apply_post_process none p = none) := by
  refine ⟨?_, ?_, fun p => rfl⟩
  · intro v hv
    simp only [extract_from_raster, hparse, hv, stage_scale, stage_offset, stage_bias,
      stage_post]
    cases h1 : (env.getConfig dataset_name).scale_factor <;>
      cases h2 : (env.getConfig dataset_name).offset <;>
        cases h3 : (env.getConfig dataset_name).bias_correction <;>
          cases h4 : (env.getConfig dataset_name).post_process <;>
            simp [h1, h2, h3, h4]
  · intro hv
    simp only [extract_from_raster, hparse, hv]

/-- Witness for claim C1 at a concrete input: the temperature config of
`envW` carries all four transform stages and the service answers `10`. -/
theorem claim_c1_raster_transform_order_witness :
    extract_from_raster envW () "temperature" (some 2024) =
      .ok (stage_post (envW.getConfig "temperature")
        (stage_bias (envW.getConfig "temperature")
          (stage_offset (envW.getConfig "temperature")
            (stage_scale (envW.getConfig "temperature") 10)))) :=
  (claim_c1_raster_transform_order envW () () "temperature" (some 2024) rfl).1 10 rfl

/-- Claim C2: for a temporal config and a supplied (truthy) year,
`_extract_from_raster` issues the query that restricts the image collection
to `year-01-01 .. year-12-31`, selects the configured band, and collapses
the collection with the sum reduction exactly when the configured reducer is
`sum` and with the mean reduction for every other reducer; with a
non-temporal config or no year it issues the single non-temporal image query
of the configured band; and the extraction consults the service exactly at
that request. -/
theorem claim_c2_temporal_dispatch {Geom : Type} (env : Env Geom)
    (geometry g : Geom) (dataset_name : String) (y : Int)
    (hy : y ≠ 0) (ht : (env.getConfig dataset_name).temporal = true)
    (hparse : env.parseGeom geometry = .ok g) :
    (mkRasterRequest (env.getConfig dataset_name) (some y)).dateFilter =
        some (toString y ++ "-01-01", toString y ++ "-12-31")
    ∧ (mkRasterRequest (env.getConfig dataset_name) (some y)).band =
        (env.getConfig dataset_name).band
    ∧ ((env.getConfig dataset_name).reducer.getD "mean" = "sum" →
        (mkRasterRequest (env.getConfig dataset_name) (some y)).collapse = some "sum")
    ∧ ((env.getConfig dataset_name).reducer.getD "mean" ≠ "sum" →
        (mkRasterRequest (env.getConfig dataset_name) (some y)).collapse = some "mean")
    ∧ (env.reduceRaster (mkRasterRequest (env.getConfig dataset_name) (some y)) g = .ok none →
        extract_from_raster env geometry dataset_name (some y) = .ok none)
    ∧ (∀ config : DatasetConfig, config.temporal = false →
        mkRasterRequest config (some y) = singleImageRequest config)
    ∧ (∀ config : DatasetConfig, mkRasterRequest config none = singleImageRequest config)
    ∧ (∀ config : DatasetConfig, (singleImageRequest config).dateFilter = none
        ∧ (singleImageRequest config).collapse = none
        ∧ (singleImageRequest config).band = config.band) := by
  refine ⟨?_, ?_, ?_, ?_, ?_, ?_, fun config => rfl, fun config => ⟨rfl, rfl, rfl⟩⟩
  · simp [mkRasterRequest, hy, ht]
  · simp [mkRasterRequest, hy, ht]
  · intro hs; simp [mkRasterRequest, hy, ht, hs]
  · intro hs; simp [mkRasterRequest, hy, ht, hs]
  · intro hv; simp only [extract_from_raster, hparse, hv]
  · intro config hc; simp [mkRasterRequest, hc]

/-- Witness for claim C2 at a concrete input: the temporal sum-reducing
rainfall config of `envW` with year 2024. -/
theorem claim_c2_temporal_dispatch_witness :
    (mkRasterRequest (envW.getConfig "rainfall") (some 2024)).dateFilter =
      some (toString (2024 : Int) ++ "-01-01", toString (2024 : Int) ++ "-12-31") :=
  (claim_c2_temporal_dispatch envW () () "rainfall" 2024 (by decide) (by decide) rfl).1

/-- Claim C3: `_extract_from_vector` returns None when no feature of the
configured collection intersects the geometry; when the first intersecting
feature is found and its configured field yields a non-None value, the
result is that value with the `scale_factor` multiplication (when present)
followed by the `post_process` rounding (when present) - the conclusion
mentions neither `offset` nor `bias_correction`, which are never applied on
the vector path. -/
theorem claim_c3_vector_extraction {Geom : Type} (env : Env Geom)
    (geometry g : Geom) (dataset_name : String)
    (hparse : env.parseGeom geometry = .ok g) :
    (env.firstIntersecting (env.getConfig dataset_name).asset_id g = .ok none →
      extract_from_vector env geometry dataset_name = .ok none)
    ∧ (∀ (f : Feature) (raw : Option PyVal),
        env.firstIntersecting (env.getConfig dataset_name).asset_id g = .ok (some f) →
        f (env.getConfig dataset_name).field = .ok raw →
        (ee_to_float raw = .ok none →
          extract_from_vector env geometry dataset_name = .ok none)
        ∧ (∀ q : Rat, ee_to_float raw = .ok (some q) →
            extract_from_vector env geometry dataset_name =
              .ok (stage_post (env.getConfig dataset_name)
                (stage_scale (env.getConfig dataset_name) q)))) := by
  refine ⟨?_, ?_⟩
  · intro hf
    simp only [extract_from_vector, hparse, hf]
  · intro f raw hf hraw
    refine ⟨?_, ?_⟩
    · intro hfloat
      simp only [extract_from_vector, hparse, hf, hraw, hfloat]
    · intro q hfloat
      simp only [extract_from_vector, hparse, hf, hraw, hfloat, stage_scale, stage_post]
      cases h1 : (env.getConfig dataset_name).scale_factor <;>
        cases h2 : (env.getConfig dataset_name).post_process <;>
          simp [h1, h2]

/-- Witness for claim C3 at a concrete input: `envW`'s vector service finds
one feature whose field yields `5.0`, on the default (vector-less transform)
config named `landuse`. -/
theorem claim_c3_vector_extraction_witness :
    extract_from_vector envW () "landuse" =
      .ok (stage_post (envW.getConfig "landuse")
        (stage_scale (envW.getConfig "landuse") 5)) :=
  ((claim_c3_vector_extraction envW () () "landuse" rfl).2
    (fun _ => .ok (some (.float 5))) (some (.float 5)) rfl rfl).2 5 rfl

/-- Claim C4: `_normalize_texture_name` returns None for None and for
strings empty after stripping; otherwise it lower-cases and strips the
text, keeps only the stripped text before the first comma when a comma is
present, maps the tokens `organic` and `variable` to None, and in
particular maps `"Clay, Clay Loam"` to `"clay"`, `"  Sandy Loam  "` to
`"sandy loam"`, `"Organic"` to None, None to None and `""` to None. -/
theorem claim_c4_normalize_texture :
    normalize_texture_name none = none
    ∧ (∀ s : String, pyStrip s = "" → normalize_texture_name (some s) = none)
    ∧ (∀ s t : String, pyLower (pyStrip s) = t → t ≠ "" →
        t.toList.contains ',' = false → t ≠ "organic" → t ≠ "variable" →
        normalize_texture_name (some s) = some t)
    ∧ (∀ s t h : String, pyLower (pyStrip s) = t → t ≠ "" →
        t.toList.contains ',' = true → pyStrip (beforeFirstComma t) = h →
        h ≠ "organic" → h ≠ "variable" →
        normalize_texture_name (some s) = some h)
    ∧ (∀ s t : String, pyLower (pyStrip s) = t → t ≠ "" →
        ((if t.toList.contains ',' then pyStrip (beforeFirstComma t) else t) = "organic" ∨
         (if t.toList.contains ',' then pyStrip (beforeFirstComma t) else t) = "variable") →
        normalize_texture_name (some s) = none)
    ∧ normalize_texture_name (some "Clay, Clay Loam") = some "clay"
    ∧ normalize_texture_name (some "  Sandy Loam  ") = some "sandy loam"
    ∧ normalize_texture_name (some "Organic") = none
    ∧ normalize_texture_name (some "") = none := by
  refine ⟨rfl, ?_, ?_, ?_, ?_, by decide, by decide, by decide, by decide⟩
  · intro s hs
    have hl : pyLower (pyStrip s) = "" := by rw [hs]; rfl
    simp [normalize_texture_name, hl]
  · intro s t h1 h2 h3 h4 h5
    simp only [normalize_texture_name]
    rw [h1, h3]
    simp [h2, h4, h5]
  · intro s t h h1 h2 h3 h4 h5 h6
    simp only [normalize_texture_name]
    rw [h1, h3, h4]
    simp [h2, h5, h6]
  · intro s t h1 h2 h3
    rcases h3 with h3 | h3 <;>
      · simp only [normalize_texture_name]
        rw [h1, h3]
        simp [h2]

/-- Witness for claim C4 at a concrete input: the comma-free clause applied
to `"  Sandy Loam  "`. -/
theorem claim_c4_normalize_texture_witness :
    normalize_texture_name (some "  Sandy Loam  ") = some "sandy loam" :=
  claim_c4_normalize_texture.2.2.1 "  Sandy Loam  " "sandy loam"
    (by decide) (by decide) (by decide) (by decide) (by decide)

/-- Claim C5: `get_texture_id` returns None whenever `get_texture` yields a
numeric (int or float) raw value, and also when the raw value is a string
whose normalized name is not a key of `TEXTURE_MAP` (or normalizes to
None); in the mapped case it returns exactly the `TEXTURE_MAP` lookup. -/
theorem claim_c5_texture_id_guard {Geom : Type} (env : Env Geom)
    (geometry : Geom) (year : Option Int) :
    (∀ k : Int, get_texture env geometry year = .ok (some (.int k)) →
      get_texture_id env geometry year = .ok none)
    ∧ (∀ q : Rat, get_texture env geometry year = .ok (some (.float q)) →
      get_texture_id env geometry year = .ok none)
    ∧ (∀ s : String, get_texture env geometry year = .ok (some (.str s)) →
        (normalize_texture_name (some s) = none →
          get_texture_id env geometry year = .ok none)
        ∧ (∀ nm, normalize_texture_name (some s) = some nm →
            TEXTURE_MAP.lookup nm = none →
            get_texture_id env geometry year = .ok none)
        ∧ (∀ nm, normalize_texture_name (some s) = some nm →
            get_texture_id env geometry year = .ok (TEXTURE_MAP.lookup nm))) := by
  refine ⟨?_, ?_, ?_⟩
  · intro k hk
    simp only [get_texture_id, hk]
  · intro q hq
    simp only [get_texture_id, hq]
  · intro s hs
    refine ⟨?_, ?_, ?_⟩
    · intro hn; simp only [get_texture_id, hs, hn]
    · intro nm hn hl; simp only [get_texture_id, hs, hn, hl]
    · intro nm hn; simp only [get_texture_id, hs, hn]

/-- Witness for claim C5 at a concrete input: `envW`'s raster-typed
soil_texture proxy yields the numeric reading `10.0`, and the texture id is
None. -/
theorem claim_c5_texture_id_guard_witness :
    get_texture_id envW () none = .ok none :=
  (claim_c5_texture_id_guard envW () none).2.1 10
    (by simp [get_texture, extract_from_raster, envW, cfgW, mkRasterRequest,
          singleImageRequest, get_reducer, apply_post_process, numToPyVal])

/-- Claim C6: the typed wrappers fix the schema representation -
`get_rainfall`, `get_temperature` and `get_elevation` apply
`int(round(value))` to the raw extraction (so a present value is always a
Python int born from rounding to the nearest whole unit), rainfall and
temperature substitute the default year 2024 when none is supplied,
`get_ph` and `get_slope` return a float rounded to 1 decimal place, and all
five return None when the extraction yields None. -/
theorem claim_c6_typed_wrappers {Geom : Type} (env : Env Geom)
    (geometry : Geom) (year : Option Int) :
    get_rainfall env geometry year =
      (extract_from_raster env geometry "rainfall" (some (pyOrDefault year 2024))).map
        (Option.map fun v => Num.int (pyRoundNum v))
    ∧ get_temperature env geometry year =
      (extract_from_raster env geometry "temperature" (some (pyOrDefault year 2024))).map
        (Option.map fun v => Num.int (pyRoundNum v))
    ∧ get_elevation env geometry year =
      (extract_from_raster env geometry "elevation" none).map
        (Option.map fun v => Num.int (pyRoundNum v))
    ∧ get_ph env geometry year =
      (extract_from_raster env geometry "soil_ph" none).map
        (Option.map fun v => Num.float (pyRoundDp 1 (numToFloat v)))
    ∧ (∀ v, get_rainfall env geometry year = .ok (some v) → ∃ k : Int, v = .int k)
    ∧ (∀ v, get_temperature env geometry year = .ok (some v) → ∃ k : Int, v = .int k)
    ∧ (∀ v, get_elevation env geometry year = .ok (some v) → ∃ k : Int, v = .int k)
    ∧ (∀ v, get_ph env geometry year = .ok (some v) → ∃ q : Rat, v = .float (pyRoundDp 1 q))
    ∧ (∀ v, get_slope env geometry year = .ok (some v) → ∃ q : Rat, v = .float (pyRoundDp 1 q))
    ∧ get_rainfall env geometry none = get_rainfall env geometry (some 2024)
    ∧ get_temperature env geometry none = get_temperature env geometry (some 2024)
    ∧ (extract_from_raster env geometry "rainfall" (some (pyOrDefault year 2024)) = .ok none →
        get_rainfall env geometry year = .ok none)
    ∧ (extract_from_raster env geometry "temperature" (some (pyOrDefault year 2024)) = .ok none →
        get_temperature env geometry year = .ok none)
    ∧ (extract_from_raster env geometry "elevation" none = .ok none →
        get_elevation env geometry year = .ok none)
    ∧ (extract_from_raster env geometry "soil_ph" none = .ok none →
        get_ph env geometry year = .ok none)
    ∧ (∀ g, env.parseGeom geometry = .ok g →
        env.reduceRaster (slopeRequest (env.getConfig "dem")) g = .ok none →
        get_slope env geometry year = .ok none) := by
  refine ⟨?_, ?_, ?_, ?_, ?_, ?_, ?_, ?_, ?_, ?_, ?_, ?_, ?_, ?_, ?_, ?_⟩
  · cases h : extract_from_raster env geometry "rainfall" (some (pyOrDefault year 2024)) <;>
      simp [get_rainfall, h, Except.map]
  · cases h : extract_from_raster env geometry "temperature" (some (pyOrDefault year 2024)) <;>
      simp [get_temperature, h, Except.map]
  · cases h : extract_from_raster env geometry "elevation" none <;>
      simp [get_elevation, h, Except.map]
  · cases h : extract_from_raster env geometry "soil_ph" none <;>
      simp [get_ph, h, Except.map]
  · intro v hv
    revert hv
    cases h : extract_from_raster env geometry "rainfall" (some (pyOrDefault year 2024)) with
    | error e => simp [get_rainfall, h]
    | ok value =>
      cases value with
      | none => simp [get_rainfall, h]
      | some w =>
        simp only [get_rainfall, h, Option.map_some]
        intro hv
        exact ⟨pyRoundNum w, by injection hv with h2; injection h2 with h3; exact h3.symm⟩
  · intro v hv
    revert hv
    cases h : extract_from_raster env geometry "temperature" (some (pyOrDefault year 2024)) with
    | error e => simp [get_temperature, h]
    | ok value =>
      cases value with
      | none => simp [get_temperature, h]
      | some w =>
        simp only [get_temperature, h, Option.map_some]
        intro hv
        exact ⟨pyRoundNum w, by injection hv with h2; injection h2 with h3; exact h3.symm⟩
  · intro v hv
    revert hv
    cases h : extract_from_raster env geometry "elevation" none with
    | error e => simp [get_elevation, h]
    | ok value =>
      cases value with
      | none => simp [get_elevation, h]
      | some w =>
        simp only [get_elevation, h, Option.map_some]
        intro hv
        exact ⟨pyRoundNum w, by injection hv with h2; injection h2 with h3; exact h3.symm⟩
  · intro v hv
    revert hv
    cases h : extract_from_raster env geometry "soil_ph" none with
    | error e => simp [get_ph, h]
    | ok value =>
      cases value with
      | none => simp [get_ph, h]
      | some w =>
        simp only [get_ph, h, Option.map_some]
        intro hv
        exact ⟨numToFloat w, by injection hv with h2; injection h2 with h3; exact h3.symm⟩
  · intro v hv
    revert hv
    cases hp : env.parseGeom geometry with
    | error e => simp [get_slope, hp]
    | ok g =>
      cases h : env.reduceRaster (slopeRequest (env.getConfig "dem")) g with
      | error e => simp [get_slope, hp, h]
      | ok value =>
        cases value with
        | none => simp [get_slope, hp, h]
        | some w =>
          simp only [get_slope, hp, h]
          intro hv
          exact ⟨w, by injection hv with h2; injection h2 with h3; exact h3.symm⟩
  · simp [get_rainfall, pyOrDefault]
  · simp [get_temperature, pyOrDefault]
  · intro h; simp [get_rainfall, h]
  · intro h; simp [get_temperature, h]
  · intro h; simp [get_elevation, h]
  · intro h; simp [get_ph, h]
  · intro g hg h; simp [get_slope, hg, h]

/-- Witness for claim C6 at a concrete input: over `envNone`, whose raster
service reports an absent value, rainfall extraction returns None. -/
theorem claim_c6_typed_wrappers_witness :
    get_rainfall envNone () (some 2024) = .ok none :=
  (claim_c6_typed_wrappers envNone () (some 2024)).2.2.2.2.2.2.2.2.2.2.2.1 rfl

/-- Claim C7: `get_centroid_lat_lon` reads the external centroid result as
`(longitude, latitude)` in that order, reorders it to
`(latitude, longitude)`, and rounds each coordinate to 6 decimal places. -/
theorem claim_c7_centroid_order {Geom : Type} (env : Env Geom)
    (geometry g : Geom) (x y : Rat) (rest : List Rat)
    (hparse : env.parseGeom geometry = .ok g)
    (hc : env.centroidCoords g = .ok (x :: y :: rest)) :
    get_centroid_lat_lon env geometry = .ok (pyRoundDp 6 y, pyRoundDp 6 x) := by
  simp only [get_centroid_lat_lon, hparse, hc]

/-- Witness for claim C7 at a concrete input: `envW`'s centroid service
answers `[125.5, -8.5]` (longitude first). -/
theorem claim_c7_centroid_order_witness :
    get_centroid_lat_lon envW () = .ok (pyRoundDp 6 (-85/10), pyRoundDp 6 (1255/10)) :=
  claim_c7_centroid_order envW () () (1255/10) (-85/10) [] rfl rfl

/-- Claim C8 counterexample: with the raster-typed soil_texture config of
`envBoom` and a remote service that raises, `get_texture` propagates the
error to the caller instead of catching it and returning None - the
catch-and-return-null leniency does not hold on the raster path. -/
theorem claim_c8_counterexample :
    get_texture envBoom () (some 2024) = .error "boom"
    ∧ (get_texture envBoom () (some 2024)).toOption = none := by
  constructor <;>
    simp [get_texture, extract_from_raster, envBoom, cfgW, mkRasterRequest,
      singleImageRequest, get_reducer, Except.toOption]

/-- Claim C8 (amended): only when the configured soil_texture dataset is
not raster-typed does `get_texture` never let an exception escape: any
error raised while parsing the geometry, querying the collection, or
reading the field is caught and turned into a None result, and a merely
absent feature is also returned as None. -/
theorem claim_c8_vector_leniency {Geom : Type} (env : Env Geom)
    (geometry : Geom) (year : Option Int)
    (hvec : (env.getConfig "soil_texture").type ≠ "raster") :
    (∃ r, get_texture env geometry year = .ok r)
    ∧ (∀ e, env.parseGeom geometry = .error e →
        get_texture env geometry year = .ok none)
    ∧ (∀ g e, env.parseGeom geometry = .ok g →
        env.firstIntersecting (env.getConfig "soil_texture").asset_id g = .error e →
        get_texture env geometry year = .ok none)
    ∧ (∀ g f e, env.parseGeom geometry = .ok g →
        env.firstIntersecting (env.getConfig "soil_texture").asset_id g = .ok (some f) →
        f (env.getConfig "soil_texture").field = .error e →
        get_texture env geometry year = .ok none)
    ∧ (∀ g, env.parseGeom geometry = .ok g →
        env.firstIntersecting (env.getConfig "soil_texture").asset_id g = .ok none →
        get_texture env geometry year = .ok none) := by
  refine ⟨?_, ?_, ?_, ?_, ?_⟩
  · simp only [get_texture, if_neg hvec]
    cases hp : env.parseGeom geometry with
    | error e => exact ⟨none, by simp [hp]⟩
    | ok g =>
      cases hf : env.firstIntersecting (env.getConfig "soil_texture").asset_id g with
      | error e => exact ⟨none, by simp [hp, hf]⟩
      | ok fo =>
        cases fo with
        | none => exact ⟨none, by simp [hp, hf]⟩
        | some f =>
          cases hr : f (env.getConfig "soil_texture").field with
          | error e => exact ⟨none, by simp [hp, hf, hr]⟩
          | ok raw => exact ⟨raw, by simp [hp, hf, hr]⟩
  · intro e hp
    simp only [get_texture, if_neg hvec, hp]
  · intro g e hp hf
    simp only [get_texture, if_neg hvec, hp, hf]
  · intro g f e hp hf hr
    simp only [get_texture, if_neg hvec, hp, hf, hr]
  · intro g hp hf
    simp only [get_texture, if_neg hvec, hp, hf]

/-- Witness for the amended claim C8 at a concrete input: `envVec` has a
vector-typed soil_texture config and a geometry parser that raises inside
the `try` block, and the result is None. -/
theorem claim_c8_vector_leniency_witness :
    get_texture envVec () none = .ok none :=
  (claim_c8_vector_leniency envVec () none (by decide)).2.1
    "InvalidGeometry: unsupported input" rfl

/-- Claim C9: evaluating the source `build_farm_profile` on a concrete farm
shows it returns the rainfall-only dictionary with exactly the keys
`farm_id`, `geometry` and `rainfall` - it carries no `coastal` key and no
`status` key at all, contradicting the claimed boolean `coastal` field and
`status = success`. -/
theorem claim_c9_rainfall_only_profile :
    build_farm_profile envW "farm-1" () [2024] =
      .ok [("farm_id", .str "farm-1"), ("geometry", .geom ()),
           ("rainfall", .rain [(2024, some (.int 10))])]
    ∧ (build_farm_profile envW "farm-1" () [2024]).toOption.bind
        (fun p => p.lookup "coastal") = none
    ∧ (build_farm_profile envW "farm-1" () [2024]).toOption.bind
        (fun p => p.lookup "status") = none
    ∧ (build_farm_profile envW "farm-1" () [2024]).toOption.bind
        (fun p => p.lookup "farm_id") = some (.str "farm-1") := by
  have hb : build_farm_profile envW "farm-1" () [2024] =
      .ok [("farm_id", .str "farm-1"), ("geometry", .geom ()),
           ("rainfall", .rain [(2024, some (.int 10))])] := by
    simp [build_farm_profile, get_rainfall, extract_from_raster, envW, cfgW,
      mkRasterRequest, singleImageRequest, get_reducer, pyOrDefault, pyRoundNum,
      pyRoundInt, apply_post_process, List.mapM, List.mapM.loop]
  refine ⟨hb, ?_, ?_, ?_⟩ <;> rw [hb] <;> rfl

/-- Claim C10: a falsy year (None or 0) passed to `get_rainfall` or
`get_temperature` is replaced by the literal default 2024 before
extraction, and inside `_extract_from_raster` a falsy year disables
temporal filtering even on a temporal config, so the single non-temporal
image query is issued instead. -/
theorem claim_c10_falsy_year {Geom : Type} (env : Env Geom) (geometry : Geom) :
    get_rainfall env geometry none = get_rainfall env geometry (some 2024)
    ∧ get_rainfall env geometry (some 0) = get_rainfall env geometry (some 2024)
    ∧ get_temperature env geometry none = get_temperature env geometry (some 2024)
    ∧ get_temperature env geometry (some 0) = get_temperature env geometry (some 2024)
    ∧ (∀ config : DatasetConfig, config.temporal = true →
        mkRasterRequest config none = singleImageRequest config
        ∧ mkRasterRequest config (some 0) = singleImageRequest config
        ∧ (singleImageRequest config).dateFilter = none
        ∧ (singleImageRequest config).collapse = none) := by
  refine ⟨?_, ?_, ?_, ?_, ?_⟩
  · simp [get_rainfall, pyOrDefault]
  · simp [get_rainfall, pyOrDefault]
  · simp [get_temperature, pyOrDefault]
  · simp [get_temperature, pyOrDefault]
  · intro config hc
    refine ⟨rfl, ?_, rfl, rfl⟩
    simp [mkRasterRequest]

/-- Witness for claim C10 at a concrete input: the temporal rainfall config
of the witness registry with year 0 issues the single-image request. -/
theorem claim_c10_falsy_year_witness :
    mkRasterRequest (cfgW "rainfall") (some 0) = singleImageRequest (cfgW "rainfall") :=
  ((claim_c10_falsy_year envW ()).2.2.2.2 (cfgW "rainfall") (by decide)).2.1

end PlantingTool
